import Mathlib

/-!
# Verification of the DMD update-mode controller layer

Shallow embedding of the device-control abstraction layer of the
DMDupdatemodes repository (`dlpcontroller.py`, `customexceptions.py`).

The controller layer talks to an external native backend (the vendor's
ActiveX control `DDC4100.DDC4100Ctrl.1` or the dynamic library
`D4100_usb.dll`).  The backend is external hardware glue, so it is modelled
as an environment of result codes (`BackendEnv`); each controller method is
embedded as a pure function from that environment to the list of backend
calls it issues (its trace) together with its outcome: either a normal
return value or a raised Python exception (`Except PyExc`).
-/

namespace DMDupdatemodes

/-- The calls the controller layer issues to the native backend.  Each
constructor records the arguments transmitted.  `setSWOverrideValueAX` is the
ActiveX `dynamicCall("SetSWOverrideValue(short)", value)`;
`setSWOverrideValueDLL` is the two-argument DLL call
`SetSWOverrideValue(value, device_number)` (dlpcontroller.py line 351 passes
0 for the device number). -/
inductive BackendCall where
  | setSWOverrideValueAX (value : Int)
  | setSWOverrideValueDLL (value : Int) (deviceNumber : Int)
  | getSWOverrideValue
  | setSWOverrideEnable (value : Int)
  | getNumDevices
  | connectDevice (id : Int) (binPath : String)
  | fileToFrameBuffer (path : String) (mirrorValue : Int)
  | loadImageFileToBuffer (path : String) (buffer : String)
  | getDMDTYPE (deviceNumber : Int)
  | loadData (length : Nat) (dmdType : Int) (deviceNumber : Int)
deriving DecidableEq, Repr

/-- The Python exceptions the layer can raise.  The first four are the
classes of `customexceptions.py`, each carrying the payload its constructor
stores; `nameError` is Python's built-in `NameError`, raised when an unbound
name is evaluated. -/
inductive PyExc where
  | setSWOverrideValueError (value : Int)
  | enableSWOverrideError (value : Int)
  | connectDeviceError
  | bufferUploadError (path : String)
  | nameError (name : String)
deriving DecidableEq, Repr

/-- The responses of the external native backend: the result code (a C
`short`) each vendor call returns, the device-attachment and device-type
state the getters report, and the byte length `np.fromfile` reads for a
path.  `swOverrideEnabled` is the device's current override-enable state; it
is recorded so that theorems can state that the layer never consults it. -/
structure BackendEnv where
  setValueResult : Int → Int
  setEnableResult : Int → Int
  connectResult : Int → String → Int
  numDevices : Int
  isDeviceAttached : Int
  fileToFrameBufferResult : String → Int → Int
  loadImageFileToBufferResult : String → String → Int
  dmdType : Int
  loadDataResult : Int
  fileLength : String → Nat
  swOverrideEnabled : Int

/-- The two interchangeable backends: `DLPControllerActiveX` (COM/ActiveX
control) and `DLPControllerDLL` (ctypes binding of `D4100_usb.dll`). -/
inductive BackendKind where
  | activeX
  | dll
deriving DecidableEq, Repr

/-- `DLPControllerActiveX._set_sw_override_value` (dlpcontroller.py 92-104)
and `DLPControllerDLL._set_sw_override_value` (346-358).  Both issue the
backend write, immediately re-read the value with `GetSWOverrideValue` for
logging, and discard both result codes.  The
`except SetSWOverrideValueError` handler in each is unreachable: the native
call returns a result code (a C short) and never raises that Python class,
and nothing in the body constructs it, so the embedding's outcome is always
a normal return. -/
def set_sw_override_value (b : BackendKind) (env : BackendEnv) (value : Int) :
    List BackendCall × Except PyExc Unit :=
  match b with
  | .activeX =>
      let _result := env.setValueResult value
      ([.setSWOverrideValueAX value, .getSWOverrideValue], .ok ())
  | .dll =>
      let _result := env.setValueResult value
      ([.setSWOverrideValueDLL value 0, .getSWOverrideValue], .ok ())

/-- `DLPControllerBase.set_single` (dlpcontroller.py 48-51): writes the
single-row update-mode register value 0x00. -/
def set_single (b : BackendKind) (env : BackendEnv) :
    List BackendCall × Except PyExc Unit :=
  set_sw_override_value b env 0x00

/-- `DLPControllerBase.set_dual` (dlpcontroller.py 53-56): writes the
dual-row update-mode register value 0x10. -/
def set_dual (b : BackendKind) (env : BackendEnv) :
    List BackendCall × Except PyExc Unit :=
  set_sw_override_value b env 0x10

/-- `DLPControllerBase.set_quad` (dlpcontroller.py 58-61): writes the
quad-row update-mode register value 0x30. -/
def set_quad (b : BackendKind) (env : BackendEnv) :
    List BackendCall × Except PyExc Unit :=
  set_sw_override_value b env 0x30

/-- `DLPControllerBase.set_global` (dlpcontroller.py 63-66): writes the
global update-mode register value 0x20. -/
def set_global (b : BackendKind) (env : BackendEnv) :
    List BackendCall × Except PyExc Unit :=
  set_sw_override_value b env 0x20

/-- `_set_sw_override_enable` of both backends (dlpcontroller.py 107-117 and
361-371).  Both issue the same logical one-argument call
`SetSWOverrideEnable(value)` and return the backend's result code to the
caller unchecked.  The `except EnableSWOverrideError` handler in each is
unreachable: the native call never raises that Python class and nothing in
the body constructs it. -/
def set_sw_override_enable (b : BackendKind) (env : BackendEnv) (value : Int) :
    List BackendCall × Except PyExc Int :=
  match b with
  | .activeX => ([.setSWOverrideEnable value], .ok (env.setEnableResult value))
  | .dll => ([.setSWOverrideEnable value], .ok (env.setEnableResult value))

/-- `DLPControllerBase.enable_override` (dlpcontroller.py 38-41): forwards
the enable value 1. -/
def enable_override (b : BackendKind) (env : BackendEnv) :
    List BackendCall × Except PyExc Int :=
  set_sw_override_enable b env 1

/-- `DLPControllerBase.disable_override` (dlpcontroller.py 43-46): forwards
the disable value 0. -/
def disable_override (b : BackendKind) (env : BackendEnv) :
    List BackendCall × Except PyExc Int :=
  set_sw_override_enable b env 0

/-- `DLPControllerActiveX.connect_device` (dlpcontroller.py 119-138): reads
`GetNumDevices()`, issues `ConnectDevice(id, bin_path)`, and logs.  Neither
result code is checked; the `except ConnectDeviceError` handler only logs
(`logging.debug(e)`) without re-raising, and is in any case unreachable
because `dynamicCall` never raises that Python class.  The outcome is
therefore always a normal return. -/
def connect_device (env : BackendEnv) (id : Int) (binPath : String) :
    List BackendCall × Except PyExc Unit :=
  let _deviceNumbers := env.numDevices
  let _result := env.connectResult id binPath
  ([.getNumDevices, .connectDevice id binPath], .ok ())

/-- `DLPControllerActiveX.check_device` (dlpcontroller.py 140-144):
`bool(self._activex.dynamicCall("IsDeviceAttached()"))`. -/
def check_device (env : BackendEnv) : Bool :=
  env.isDeviceAttached != 0

/-- `DLPControllerActiveX.load_image_to_buffer` (dlpcontroller.py 169-188):
computes `mirror_value = int(mirrored)`, issues `FileToFrameBuffer`, and
raises `BufferUploadError(image_path)` when the result code differs from 1;
on result 1 it returns `bool(result)`. -/
def load_image_to_buffer (env : BackendEnv) (imagePath : String)
    (mirrored : Bool) : List BackendCall × Except PyExc Bool :=
  let mirrorValue : Int := if mirrored then 1 else 0
  let result := env.fileToFrameBufferResult imagePath mirrorValue
  if result ≠ 1 then
    ([.fileToFrameBuffer imagePath mirrorValue],
      .error (.bufferUploadError imagePath))
  else
    ([.fileToFrameBuffer imagePath mirrorValue], .ok (result != 0))

/-- The module-level global names of `dlpcontroller.py`: its imports (the
star import of `customexceptions` binds the four exception classes) and the
classes the module defines. -/
def dlpcontroller_module_globals : List String :=
  ["ctypes", "logging", "QtWidgets", "QAxContainer", "np", "sys", "abc",
   "SetSWOverrideValueError", "EnableSWOverrideError", "ConnectDeviceError",
   "BufferUploadError", "DLPControllerBase", "DLPControllerActiveX",
   "DLPControllerDLL"]

/-- The Python built-in names the module references.  The built-ins table
contains neither `mirror_value` nor `exception`. -/
def python_builtins_used : List String :=
  ["print", "bin", "int", "bool", "len", "super", "Exception", "hex",
   "str", "format"]

/-- Python name resolution for a name read inside a function of
`dlpcontroller.py`: local scope, then module globals, then built-ins. -/
def resolvesName (localNames : List String) (n : String) : Bool :=
  localNames.contains n || dlpcontroller_module_globals.contains n ||
    python_builtins_used.contains n

/-- The names bound in the local scope of
`DLPControllerActiveX.load_image_to_movie_buffer` at its first statement:
only its parameters, since no assignment precedes line 200. -/
def load_image_to_movie_buffer_locals : List String :=
  ["self", "image_path", "buffer", "mirrored"]

/-- The names interpolated by the f-string argument
`f"LoadImageFileToBuffer({image_path}, {buffer}, {mirror_value})"` on
dlpcontroller.py line 200, in evaluation order. -/
def fstring_names_line200 : List String :=
  ["image_path", "buffer", "mirror_value"]

/-- `DLPControllerActiveX.load_image_to_movie_buffer` (dlpcontroller.py
190-206).  Python evaluates the f-string argument before `dynamicCall`
runs; the first name in it that resolves neither locally, globally nor as a
built-in raises `NameError` at that point, before any backend call.  If all
names resolved, the failure branch `raise exception` (line 203) would
evaluate the name `exception`, which is likewise unbound in this scope. -/
def load_image_to_movie_buffer (env : BackendEnv) (imagePath buffer : String)
    (mirrored : Bool) : List BackendCall × Except PyExc Bool :=
  match fstring_names_line200.find?
      (fun n => !resolvesName load_image_to_movie_buffer_locals n) with
  | some n => ([], .error (.nameError n))
  | none =>
      let result := env.loadImageFileToBufferResult imagePath buffer
      if result ≠ 1 then
        ([.loadImageFileToBuffer imagePath buffer],
          .error (.nameError "exception"))
      else
        ([.loadImageFileToBuffer imagePath buffer], .ok (result != 0))

/-- `DLPControllerDLL.load_image_buffer` (dlpcontroller.py 373-395): reads
the file bytes, sets `device_number = 0`, queries `GetDMDTYPE(0)` afresh,
and passes the freshly obtained device type to `LoadData` together with the
byte length and device number.  The class stores no device-type attribute,
so nothing is cached between invocations.  Failure of `LoadData` is only
logged; no exception is raised and nothing is returned. -/
def load_image_buffer (env : BackendEnv) (imagePath : String) :
    List BackendCall × Except PyExc Unit :=
  let imageLength := env.fileLength imagePath
  let deviceNumber : Int := 0
  let dmdType := env.dmdType
  let _result := env.loadDataResult
  ([.getDMDTYPE deviceNumber, .loadData imageLength dmdType deviceNumber],
    .ok ())

/-- `EnableSWOverrideError.__init__` (customexceptions.py 6-11): the message
passed to `Exception.__init__`, distinguishing enable (value 1) from
disable (any other value, in particular 0). -/
def enableSWOverrideErrorMessage (value : Int) : String :=
  if value = 1 then "Failed to Enable Software Override"
  else "Failed to Disable Software Override"

/-- The override-value values transmitted in a trace: the arguments of the
override-value write calls of either backend, in order. -/
def writtenValues (cs : List BackendCall) : List Int :=
  cs.filterMap (fun c =>
    match c with
    | .setSWOverrideValueAX v => some v
    | .setSWOverrideValueDLL v _ => some v
    | _ => none)

/-- The device type transmitted by the first `LoadData` call of a trace, if
any. -/
def loadDataDmdType (cs : List BackendCall) : Option Int :=
  cs.findSome? (fun c =>
    match c with
    | .loadData _ t _ => some t
    | _ => none)

/-- The device's software-override registers. -/
structure DMDRegs where
  swOverrideValue : Int
  swOverrideEnable : Int
deriving DecidableEq, Repr

/-- Modelled from the spec: the native backend (the vendor ActiveX control
and `D4100_usb.dll`) is not part of the repository; per the spec's
round-trip property, an override-value write stores the transmitted value
in the device register and `GetSWOverrideValue` returns the stored value,
which persists until the next override-value write. -/
def applyCall (s : DMDRegs) : BackendCall → DMDRegs
  | .setSWOverrideValueAX v => { s with swOverrideValue := v }
  | .setSWOverrideValueDLL v _ => { s with swOverrideValue := v }
  | .setSWOverrideEnable v => { s with swOverrideEnable := v }
  | _ => s

/-- Effect of a whole trace of backend calls on the device registers. -/
def applyTrace (s : DMDRegs) (cs : List BackendCall) : DMDRegs :=
  cs.foldl applyCall s

/-- Whether a backend call is an override-value write (of either backend). -/
def isOverrideValueWrite : BackendCall → Bool
  | .setSWOverrideValueAX _ => true
  | .setSWOverrideValueDLL _ _ => true
  | _ => false

/-- What `GetSWOverrideValue` reports in register state `s`. -/
def getSWOverrideValueOf (s : DMDRegs) : Int :=
  s.swOverrideValue

/-- A backend that reports failure: every vendor call returns result code 0
(not the success code 1), one device is enumerated, the device is not
attached, and files read as empty. -/
def envFail : BackendEnv where
  setValueResult := fun _ => 0
  setEnableResult := fun _ => 0
  connectResult := fun _ _ => 0
  numDevices := 1
  isDeviceAttached := 0
  fileToFrameBufferResult := fun _ _ => 0
  loadImageFileToBufferResult := fun _ _ => 0
  dmdType := 0
  loadDataResult := 0
  fileLength := fun _ => 0
  swOverrideEnabled := 0

/-- If a trace contains no override-value write, replaying it leaves the
override-value register unchanged. -/
theorem applyTrace_value_of_no_write (cs : List BackendCall) :
    ∀ s : DMDRegs, (∀ c ∈ cs, isOverrideValueWrite c = false) →
      (applyTrace s cs).swOverrideValue = s.swOverrideValue := by
  induction cs with
  | nil => intro s _; rfl
  | cons c rest ih =>
      intro s h
      have hc : isOverrideValueWrite c = false := h c (List.mem_cons_self c rest)
      have hrest : ∀ x ∈ rest, isOverrideValueWrite x = false :=
        fun x hx => h x (List.mem_cons_of_mem c hx)
      have hstep : applyTrace s (c :: rest) = applyTrace (applyCall s c) rest := rfl
      rw [hstep, ih (applyCall s c) hrest]
      cases c <;> simp_all [applyCall, isOverrideValueWrite]

/-- C1: the claim says that when the backend rejects the override-value
write, `setMode` raises `SetSWOverrideValueError` carrying the attempted
register value.  The code never does: both backends discard the result code
of `SetSWOverrideValue`, their `except SetSWOverrideValueError` handlers are
unreachable, and no path constructs the exception.  Evaluating every mode on
both backends against `envFail`, whose `SetSWOverrideValue` returns the
failure code 0, each operation completes normally instead of raising. -/
theorem claim_C1_no_raise_on_rejected_write :
    (set_single .activeX envFail).2 = Except.ok () ∧
    (set_dual .activeX envFail).2 = Except.ok () ∧
    (set_quad .activeX envFail).2 = Except.ok () ∧
    (set_global .activeX envFail).2 = Except.ok () ∧
    (set_single .dll envFail).2 = Except.ok () ∧
    (set_dual .dll envFail).2 = Except.ok () ∧
    (set_quad .dll envFail).2 = Except.ok () ∧
    (set_global .dll envFail).2 = Except.ok () :=
  ⟨rfl, rfl, rfl, rfl, rfl, rfl, rfl, rfl⟩

/-- C2: the claim says `enable_override` writes enable value 1 and raises
`EnableSWOverrideError` exactly when the backend's result code is not the
success code, and `disable_override` mirrors it with value 0.  The writes of
1 and 0 do happen, but the result code is returned unchecked and no path
raises: against `envFail`, whose `SetSWOverrideEnable` returns the failure
code 0, both operations complete normally, returning the failure code. -/
theorem claim_C2_no_raise_on_rejected_enable :
    enable_override .activeX envFail
      = ([BackendCall.setSWOverrideEnable 1], Except.ok 0) ∧
    disable_override .activeX envFail
      = ([BackendCall.setSWOverrideEnable 0], Except.ok 0) ∧
    enable_override .dll envFail
      = ([BackendCall.setSWOverrideEnable 1], Except.ok 0) ∧
    disable_override .dll envFail
      = ([BackendCall.setSWOverrideEnable 0], Except.ok 0) :=
  ⟨rfl, rfl, rfl, rfl⟩

/-- C3: on either backend, each update-mode operation transmits exactly its
documented fixed register value to the backend's override-value call — 0x00
for single, 0x10 for dual, 0x30 for quad, 0x20 for global — and no other
override-value write occurs in its trace. -/
theorem claim_C3_fixed_register_values (b : BackendKind) (env : BackendEnv) :
    writtenValues (set_single b env).1 = [0x00] ∧
    writtenValues (set_dual b env).1 = [0x10] ∧
    writtenValues (set_quad b env).1 = [0x30] ∧
    writtenValues (set_global b env).1 = [0x20] := by
  cases b <;>
    exact ⟨rfl, rfl, rfl, rfl⟩

/-- C4: whenever the backend's `FileToFrameBuffer` call does not return the
success code 1 for the transmitted path and mirror value,
`load_image_to_buffer` raises `BufferUploadError` carrying that exact path;
when the backend returns 1, it returns `true` without raising.  Its trace is
exactly the single `FileToFrameBuffer` call, so no other buffer mutation is
issued on either outcome. -/
theorem claim_C4_buffer_upload_error (env : BackendEnv) (imagePath : String)
    (mirrored : Bool) :
    (load_image_to_buffer env imagePath mirrored).1
      = [BackendCall.fileToFrameBuffer imagePath (if mirrored then 1 else 0)] ∧
    (env.fileToFrameBufferResult imagePath (if mirrored then 1 else 0) ≠ 1 →
      (load_image_to_buffer env imagePath mirrored).2
        = Except.error (PyExc.bufferUploadError imagePath)) ∧
    (env.fileToFrameBufferResult imagePath (if mirrored then 1 else 0) = 1 →
      (load_image_to_buffer env imagePath mirrored).2 = Except.ok true) := by
  cases mirrored with
  | false =>
      by_cases h : env.fileToFrameBufferResult imagePath 0 = 1 <;>
        refine ⟨?_, ?_, ?_⟩ <;>
          simp_all [load_image_to_buffer]
  | true =>
      by_cases h : env.fileToFrameBufferResult imagePath 1 = 1 <;>
        refine ⟨?_, ?_, ?_⟩ <;>
          simp_all [load_image_to_buffer]

/-- Witness for C4 at a concrete failing backend and path. -/
theorem claim_C4_buffer_upload_error_witness :
    (load_image_to_buffer envFail "no_such_file.bmp" false).2
      = Except.error (PyExc.bufferUploadError "no_such_file.bmp") :=
  (claim_C4_buffer_upload_error envFail "no_such_file.bmp" false).2.1
    (by decide)

/-- C5 counterexample: the claim says that for an invalid device index
`connect_device` raises `ConnectDeviceError` to the caller.  Against
`envFail`, where `ConnectDevice(99, _)` returns the failure code and the
device stays unattached, `connect_device` does not raise it: the result code
is never checked, and the `except` handler would only log without
re-raising. -/
theorem claim_C5_counterexample :
    (connect_device envFail 99 "D4100_GUI_FPGA.bin").2
      ≠ Except.error PyExc.connectDeviceError := by
  intro h
  exact Except.noConfusion h

/-- C5 as amended: `connect_device` never raises — the backend's result code
is ignored, and any `ConnectDeviceError` would be caught and only logged —
so an invalid device index produces no error at the caller; the device is
left unattached, observable afterwards by `check_device` returning false
whenever the backend reports the device as not attached. -/
theorem claim_C5_amended (env : BackendEnv) (id : Int) (binPath : String) :
    (connect_device env id binPath).2 = Except.ok () ∧
    (env.isDeviceAttached = 0 → check_device env = false) := by
  refine ⟨rfl, ?_⟩
  intro h
  simp [check_device, h]

/-- Witness for the amended C5 at a concrete invalid index. -/
theorem claim_C5_amended_witness :
    (connect_device envFail 99 "D4100_GUI_FPGA.bin").2 = Except.ok () ∧
    check_device envFail = false :=
  ⟨(claim_C5_amended envFail 99 "D4100_GUI_FPGA.bin").1,
    (claim_C5_amended envFail 99 "D4100_GUI_FPGA.bin").2 rfl⟩

/-- C6: the update-mode operations contain no synthetic "override not
enabled" guard: on either backend their whole behaviour — trace and outcome
— is unchanged when the device's override-enable state is replaced by any
value, they always issue exactly one override-value write, and they never
produce a layer-added error. -/
theorem claim_C6_no_override_guard (b : BackendKind) (env : BackendEnv)
    (v : Int) :
    set_single b { env with swOverrideEnabled := v } = set_single b env ∧
    set_dual b { env with swOverrideEnabled := v } = set_dual b env ∧
    set_quad b { env with swOverrideEnabled := v } = set_quad b env ∧
    set_global b { env with swOverrideEnabled := v } = set_global b env ∧
    (writtenValues (set_single b env).1).length = 1 ∧
    (writtenValues (set_dual b env).1).length = 1 ∧
    (writtenValues (set_quad b env).1).length = 1 ∧
    (writtenValues (set_global b env).1).length = 1 ∧
    (set_single b env).2 = Except.ok () ∧
    (set_dual b env).2 = Except.ok () ∧
    (set_quad b env).2 = Except.ok () ∧
    (set_global b env).2 = Except.ok () := by
  cases b <;>
    exact ⟨rfl, rfl, rfl, rfl, rfl, rfl, rfl, rfl, rfl, rfl, rfl, rfl⟩

/-- C7: replaying the backend calls of `set_quad` on any register state
leaves the override-value register at 0x30, so `GetSWOverrideValue` then
reports 0x30; and after any further trace containing no override-value
write, it still reports 0x30. -/
theorem claim_C7_quad_round_trip (b : BackendKind) (env : BackendEnv)
    (s : DMDRegs) (cs : List BackendCall)
    (h : ∀ c ∈ cs, isOverrideValueWrite c = false) :
    getSWOverrideValueOf (applyTrace s (set_quad b env).1) = 0x30 ∧
    getSWOverrideValueOf
      (applyTrace (applyTrace s (set_quad b env).1) cs) = 0x30 := by
  have hq : getSWOverrideValueOf (applyTrace s (set_quad b env).1) = 0x30 := by
    cases b <;> rfl
  refine ⟨hq, ?_⟩
  have := applyTrace_value_of_no_write cs (applyTrace s (set_quad b env).1) h
  simpa [getSWOverrideValueOf, this] using hq

/-- Witness for C7: a concrete state, backend and follow-up trace of
non-write calls. -/
theorem claim_C7_quad_round_trip_witness :
    getSWOverrideValueOf (applyTrace ⟨0, 0⟩ (set_quad .dll envFail).1)
      = 0x30 ∧
    getSWOverrideValueOf
      (applyTrace (applyTrace ⟨0, 0⟩ (set_quad .dll envFail).1)
        [BackendCall.getSWOverrideValue, BackendCall.setSWOverrideEnable 1,
          BackendCall.getDMDTYPE 0]) = 0x30 :=
  claim_C7_quad_round_trip .dll envFail ⟨0, 0⟩
    [BackendCall.getSWOverrideValue, BackendCall.setSWOverrideEnable 1,
      BackendCall.getDMDTYPE 0] (by decide)

/-- C8: each invocation of `load_image_buffer` first queries `GetDMDTYPE`
and then calls `LoadData`, and the device type transmitted to `LoadData` is
the backend's device type at this very invocation — a function of the
current environment only, with no controller state carried over from any
previous load. -/
theorem claim_C8_fresh_dmd_type (env : BackendEnv) (imagePath : String) :
    (load_image_buffer env imagePath).1
      = [BackendCall.getDMDTYPE 0,
         BackendCall.loadData (env.fileLength imagePath) env.dmdType 0] ∧
    loadDataDmdType (load_image_buffer env imagePath).1 = some env.dmdType :=
  ⟨rfl, rfl⟩

/-- C9: the `EnableSWOverrideError` message distinguishes the directions:
value 1 yields the enable-failure text and value 0 the disable-failure
text, and the two messages differ. -/
theorem claim_C9_enable_error_messages :
    enableSWOverrideErrorMessage 1 = "Failed to Enable Software Override" ∧
    enableSWOverrideErrorMessage 0 = "Failed to Disable Software Override" ∧
    enableSWOverrideErrorMessage 1 ≠ enableSWOverrideErrorMessage 0 := by
  refine ⟨rfl, rfl, ?_⟩
  decide

/-- C10: for every argument combination, `load_image_to_movie_buffer` raises
`NameError` for the unbound name `mirror_value` while evaluating the
f-string argument, before any backend call is issued (its trace is empty);
`mirror_value` resolves neither locally, globally nor as a built-in. -/
theorem claim_C10_name_error (env : BackendEnv) (imagePath buffer : String)
    (mirrored : Bool) :
    load_image_to_movie_buffer env imagePath buffer mirrored
      = ([], Except.error (PyExc.nameError "mirror_value")) ∧
    resolvesName load_image_to_movie_buffer_locals "mirror_value" = false := by
  exact ⟨rfl, rfl⟩

end DMDupdatemodes
